import Mathlib

/-!
Verification of the mingda_filament_hub coordination daemon.

Shallow embedding of the core components, translated from the Python
source:
  - `state_manager.py`  (StateManager, SystemStateEnum)
  - `can_communication.py`  (frame classification, handshake, frame encoders)
  - `rfid_parser.py`  (RFID multi-packet reassembly and OpenTag decoding)
  - `main.py`  (coordinator handlers: filament status query, mapping set,
    runout scan, PAUSED and RESUMING entry actions)

Machine bytes are modelled as `Nat` values; Python dictionaries are
modelled as association lists with insertion-order-preserving overwrite,
matching CPython dict semantics for the operations used (membership test,
item get, item set, item delete, len).  Fallible operations return
`Option`.  Wall-clock time and asyncio scheduling are not modelled; a
handler is embedded as a pure function from its inputs (including any
mutable state it reads) to its outputs (returned value, emitted CAN
frames or G-code, state transitions).
-/

namespace FeederCabinet

/-- Association-list lookup with natural-number keys, mirroring a Python
dict get: the first matching key wins (keys are unique by construction
since `insertKey` overwrites in place). -/
def lookupKey {α : Type} (l : List (Nat × α)) (k : Nat) : Option α :=
  match l with
  | [] => none
  | (k₀, v) :: rest => if k₀ = k then some v else lookupKey rest k

/-- Association-list insert mirroring a Python dict item assignment:
if the key exists its value is replaced in place, otherwise the pair is
appended, preserving insertion order. -/
def insertKey {α : Type} (l : List (Nat × α)) (k : Nat) (v : α) : List (Nat × α) :=
  match l with
  | [] => [(k, v)]
  | (k₀, v₀) :: rest => if k₀ = k then (k, v) :: rest else (k₀, v₀) :: insertKey rest k v

/-- Association-list delete mirroring a Python dict `del`. -/
def eraseKey {α : Type} (l : List (Nat × α)) (k : Nat) : List (Nat × α) :=
  match l with
  | [] => []
  | (k₀, v₀) :: rest => if k₀ = k then rest else (k₀, v₀) :: eraseKey rest k

/-- Association-list lookup with string keys (Python dict get). -/
def lookupStr {α : Type} (l : List (String × α)) (k : String) : Option α :=
  match l with
  | [] => none
  | (k₀, v) :: rest => if k₀ = k then some v else lookupStr rest k

/-- Byte access `data[i]` on a byte sequence, defaulting to 0; every use
site is guarded by the same length checks as the Python source. -/
def byteAt (d : List Nat) (i : Nat) : Nat := d.getD i 0

/-- A CAN frame: arbitration identifier plus data bytes
(`can.Message.arbitration_id`, `can.Message.data`). -/
structure CANFrame where
  arbitrationId : Nat
  data : List Nat
deriving DecidableEq, Repr

/-! ## state_manager.py -/

/-- SystemStateEnum from `state_manager.py`. -/
inductive SystemStateEnum where
  | STARTING
  | IDLE
  | PRINTING
  | PAUSED
  | RUNOUT
  | FEEDING
  | RESUMING
  | ERROR
  | DISCONNECTED
deriving DecidableEq, Repr

/-- A transition payload value (`**kwargs` values used by the source are
ints such as `extruder` and strings such as `reason`). -/
inductive PayloadVal where
  | intVal (n : Int)
  | strVal (s : String)
deriving DecidableEq, Repr

/-- A keyword-argument payload dictionary. -/
abbrev Payload := List (String × PayloadVal)

/-- StateManager from `state_manager.py`: current state and the payload
attached by the last transition. -/
structure StateManager where
  state : SystemStateEnum
  statePayload : Payload
deriving DecidableEq, Repr

/-- StateManager.transition_to: returns the updated manager together with
the state-change callback invocation `(old_state, new_state, payload)`
when one happens; when the target equals the current state the method
returns immediately. -/
def StateManager.transitionTo (m : StateManager) (newState : SystemStateEnum)
    (kwargs : Payload) :
    StateManager × Option (SystemStateEnum × SystemStateEnum × Payload) :=
  if m.state = newState then (m, none)
  else ({ state := newState, statePayload := kwargs }, some (m.state, newState, kwargs))

/-! ## can_communication.py : identifiers, command codes, receive path -/

def SEND_ID : Nat := 0x10A
def RECEIVE_ID : Nat := 0x10B
def HANDSHAKE_SEND_ID : Nat := 0x3F0
def HANDSHAKE_RECEIVE_ID : Nat := 0x3F1

def HANDSHAKE_DATA : List Nat := [0x01, 0xF0, 0x10, 0x00, 0x00, 0x06, 0x01, 0x05]
def HANDSHAKE_RESPONSE : List Nat := [0x05]

def CMD_REQUEST_FEED : Nat := 0x01
def CMD_STOP_FEED : Nat := 0x02
def CMD_QUERY_STATUS : Nat := 0x03
def CMD_PRINTING : Nat := 0x04
def CMD_PRINT_COMPLETE : Nat := 0x05
def CMD_PRINT_PAUSE : Nat := 0x06
def CMD_PRINT_CANCEL : Nat := 0x07
def CMD_PRINTER_IDLE : Nat := 0x08
def CMD_PRINTER_ERROR : Nat := 0x09
def CMD_HEARTBEAT : Nat := 0x0A
def CMD_QUERY_PRINTER_FILAMENT_STATUS : Nat := 0x0D
def CMD_PRINTER_FILAMENT_STATUS_RESPONSE : Nat := 0x0E
def CMD_SET_FEEDER_MAPPING : Nat := 0x0F
def CMD_QUERY_FEEDER_MAPPING : Nat := 0x10
def CMD_FEEDER_MAPPING_RESPONSE : Nat := 0x11
def CMD_RFID_RAW_DATA_NOTIFY : Nat := 0x14
def CMD_RFID_RAW_DATA_REQUEST : Nat := 0x15
def CMD_RFID_RAW_DATA_RESPONSE : Nat := 0x16
def CMD_RFID_DATA_PACKET : Nat := 0x17
def CMD_RFID_DATA_END : Nat := 0x18
def CMD_RFID_READ_ERROR : Nat := 0x19

/-- The reaction of `FeederCabinetCAN._receive_loop` to a single received
frame.  `statusCallback` carries the heartbeat-latch flip together with
the status event fields `{status, progress, error_code}`. -/
inductive RxAction where
  | ignored
  | queryCallback
  | mappingSetCallback (leftTube rightTube status : Nat)
  | rfidCallback (command : Nat) (data : List Nat)
  | statusCallback (heartbeatLatched : Bool) (status progress errorCode : Nat)
deriving DecidableEq, Repr

/-- One iteration of `FeederCabinetCAN._receive_loop` on a received frame,
with all callbacks registered (the coordinator registers them during
`init`).  Frames whose identifier is not `RECEIVE_ID` are dropped; empty
data is dropped with a warning; byte 0 selects the command. -/
def receiveClassify (frame : CANFrame) : RxAction :=
  if frame.arbitrationId ≠ RECEIVE_ID then .ignored
  else if frame.data = [] then .ignored
  else
    let command := byteAt frame.data 0
    if command = CMD_QUERY_PRINTER_FILAMENT_STATUS then .queryCallback
    else if command = CMD_SET_FEEDER_MAPPING then
      if 4 ≤ frame.data.length ∧ byteAt frame.data 3 = 0x00 ∧
          byteAt frame.data 1 < 2 ∧ byteAt frame.data 2 < 2 ∧
          byteAt frame.data 1 ≠ byteAt frame.data 2 then
        .mappingSetCallback (byteAt frame.data 1) (byteAt frame.data 2) (byteAt frame.data 3)
      else .ignored
    else if command = CMD_RFID_RAW_DATA_NOTIFY ∨ command = CMD_RFID_RAW_DATA_RESPONSE ∨
        command = CMD_RFID_DATA_PACKET ∨ command = CMD_RFID_DATA_END ∨
        command = CMD_RFID_READ_ERROR then
      .rfidCallback command frame.data
    else
      .statusCallback (decide (1 ≤ frame.data.length ∧ byteAt frame.data 0 = 0x05))
        (byteAt frame.data 0)
        (if 1 < frame.data.length then byteAt frame.data 1 else 0)
        (if 2 < frame.data.length then byteAt frame.data 2 else 0)

/-- Decision of `FeederCabinetCAN._perform_handshake` as a function of the
first frame delivered by the buffered reader within the 5 s window
(`none` models the `asyncio.TimeoutError` case).  The source compares the
full data list against `HANDSHAKE_RESPONSE = [0x05]`. -/
def performHandshakeDecision (response : Option CANFrame) : Bool :=
  match response with
  | none => false
  | some msg =>
    if msg.arbitrationId = HANDSHAKE_RECEIVE_ID ∧ msg.data = HANDSHAKE_RESPONSE then true
    else false

/-! ## can_communication.py : outbound frame encoders -/

/-- Data bytes built by `FeederCabinetCAN.send_message`. -/
def sendMessageData (cmdType extruder : Nat) : List Nat :=
  [cmdType, extruder, 0, 0, 0, 0, 0, 0]

/-- Frame built by `FeederCabinetCAN.request_feed`. -/
def requestFeedFrame (tubeId : Nat) : CANFrame :=
  ⟨SEND_ID, [CMD_REQUEST_FEED, 0x00, tubeId, 0x00, 0x00, 0x00, 0x00, 0x00]⟩

/-- Frame built by `FeederCabinetCAN.send_filament_status_response`:
validity byte is 0 when the data is valid and 1 otherwise. -/
def filamentStatusResponseFrame (isValid : Bool) (statusBitmap : Nat) : CANFrame :=
  ⟨SEND_ID, [CMD_PRINTER_FILAMENT_STATUS_RESPONSE, if isValid then 0x00 else 0x01,
    statusBitmap, 0, 0, 0, 0, 0]⟩

/-- Frame built by `FeederCabinetCAN.send_feeder_mapping_response`. -/
def feederMappingResponseFrame (leftExtruder rightExtruder status : Nat) : CANFrame :=
  ⟨SEND_ID, [CMD_FEEDER_MAPPING_RESPONSE, leftExtruder, rightExtruder, status,
    0x00, 0x00, 0x00, 0x00]⟩

/-! ## rfid_parser.py -/

/-- OpenTagFilamentData from `rfid_parser.py`.  String fields are kept as
their raw byte content after NUL truncation (the UTF-8 decode with
ignored errors and whitespace strip of `_extract_string` is not modelled;
no claim depends on the decoded text).  Field defaults follow the Python
dataclass. -/
structure OpenTagFilamentData where
  tagVersion : Nat := 0
  manufacturer : List Nat := []
  materialName : List Nat := []
  colorName : List Nat := []
  diameterTarget : Nat := 1750
  weightNominal : Nat := 1000
  printTemp : Nat := 210
  bedTemp : Nat := 60
  density : Nat := 1240
  serialNumber : List Nat := []
  manufactureDate : Option Nat := none
  spoolCoreDiameter : Option Nat := none
  mfi : Option Nat := none
  toleranceMeasured : Option Nat := none
  additionalDataUrl : List Nat := []
  emptySpoolWeight : Option Nat := none
  filamentWeightMeasured : Option Nat := none
  filamentLengthMeasured : Option Nat := none
  transmissionDistance : Option Nat := none
  colorHex : Option Nat := none
  maxDryTemp : Option Nat := none
deriving DecidableEq, Repr

/-- RFIDTransferSession from `rfid_parser.py`.  The `start_time` and
`complete` fields are omitted: wall-clock time is outside the model and
`complete` is never read by the source. -/
structure RFIDTransferSession where
  sequence : Nat
  extruderId : Nat
  filamentId : Nat
  totalPackets : Nat
  dataLength : Nat
  dataSource : Nat
  receivedPackets : List (Nat × List Nat)
deriving DecidableEq, Repr

/-- State of RFIDDataParser: sessions keyed by sequence number, completed
records keyed by extruder id. -/
structure RFIDDataParser where
  activeSessions : List (Nat × RFIDTransferSession)
  completedData : List (Nat × OpenTagFilamentData)
deriving DecidableEq, Repr

/-- Result dictionaries returned by `RFIDDataParser.handle_rfid_message`.
`rfidError` covers the the dict shape with type rfid_error and an error string shape
produced on reassembly, checksum and parse failures; `rfidReadError`
covers the richer shape produced by `_handle_error`. -/
inductive RFIDResult where
  | rfidStart (extruderId filamentId : Nat) (dataSource : String)
  | rfidResponseStart (extruderId filamentId : Nat)
  | rfidPacket (packetNum totalPackets : Nat)
  | rfidComplete (extruderId filamentId : Nat) (data : OpenTagFilamentData)
  | rfidError (error : String)
  | rfidReadError (extruderId errorCode : Nat)
deriving DecidableEq, Repr

/-- Little-endian 16-bit read, `struct.unpack_from` with format `<H`. -/
def readU16LE (d : List Nat) (off : Nat) : Nat :=
  byteAt d off + 256 * byteAt d (off + 1)

/-- Little-endian 32-bit read, `struct.unpack_from` with format `<I`. -/
def readU32LE (d : List Nat) (off : Nat) : Nat :=
  byteAt d off + 256 * byteAt d (off + 1) + 65536 * byteAt d (off + 2) +
    16777216 * byteAt d (off + 3)

/-- RFIDDataParser._extract_string: take the fixed-width slice and
truncate at the first NUL byte (the UTF-8 decode and strip are not
modelled, see `OpenTagFilamentData`). -/
def extractString (d : List Nat) (off len : Nat) : List Nat :=
  ((d.drop off).take len).takeWhile (fun b => b ≠ 0)

/-- Field extraction of RFIDDataParser._parse_opentag_data: the required
fields sit at fixed offsets; the optional fields are parsed sequentially,
each advancing the offset only when its guard on the remaining length
holds, exactly as in the source. -/
def parseOpentagFields (data : List Nat) : OpenTagFilamentData :=
    let f0 : OpenTagFilamentData :=
      { tagVersion := readU16LE data 0
        manufacturer := extractString data 2 16
        materialName := extractString data 18 16
        colorName := extractString data 34 32
        diameterTarget := readU16LE data 66
        weightNominal := readU16LE data 68
        printTemp := readU16LE data 70
        bedTemp := readU16LE data 72
        density := readU16LE data 74 }
    let off := 76
    let (f1, off) :=
      if off < data.length then
        ({ f0 with serialNumber := extractString data off 16 }, off + 16)
      else (f0, off)
    let (f2, off) :=
      if off + 8 < data.length then
        let manufactureDate := readU32LE data off
        ({ f1 with manufactureDate :=
            if manufactureDate ≠ 0xFFFFFFFF then some manufactureDate else none },
          off + 8)
      else (f1, off)
    let (f3, off) :=
      if off < data.length then
        let v := byteAt data off
        ({ f2 with spoolCoreDiameter := if v = 0xFF then none else some v }, off + 1)
      else (f2, off)
    let (f4, off) :=
      if off < data.length then
        let v := byteAt data off
        ({ f3 with mfi := if v = 0xFF then none else some v }, off + 1)
      else (f3, off)
    let (f5, off) :=
      if off < data.length then
        let v := byteAt data off
        ({ f4 with toleranceMeasured := if v = 0xFF then none else some v }, off + 1)
      else (f4, off)
    let (f6, off) :=
      if off + 32 < data.length then
        ({ f5 with additionalDataUrl := extractString data off 32 }, off + 32)
      else (f5, off)
    let (f7, off) :=
      if off + 2 < data.length then
        let v := readU16LE data off
        ({ f6 with emptySpoolWeight := if v = 0xFFFF then none else some v }, off + 2)
      else (f6, off)
    let (f8, off) :=
      if off + 2 < data.length then
        let v := readU16LE data off
        ({ f7 with filamentWeightMeasured := if v = 0xFFFF then none else some v }, off + 2)
      else (f7, off)
    let (f9, off) :=
      if off + 2 < data.length then
        let v := readU16LE data off
        ({ f8 with filamentLengthMeasured := if v = 0xFFFF then none else some v }, off + 2)
      else (f8, off)
    let (f10, off) :=
      if off + 2 < data.length then
        let v := readU16LE data off
        ({ f9 with transmissionDistance := if v = 0xFFFF then none else some v }, off + 2)
      else (f9, off)
    let (f11, off) :=
      if off + 4 < data.length then
        let v := readU32LE data off
        ({ f10 with colorHex := if v = 0xFFFFFFFF then none else some v }, off + 4)
      else (f10, off)
    let f12 :=
      if off < data.length then
        let v := byteAt data off
        { f11 with maxDryTemp := if v = 0xFF then none else some v }
      else f11
    f12

/-- RFIDDataParser._parse_opentag_data raises a ValueError when the
buffer is below the 89-byte minimum; otherwise it parses the fields. -/
def parseOpentagData (data : List Nat) : Option OpenTagFilamentData :=
  if data.length < 89 then none else some (parseOpentagFields data)

/-- RFIDDataParser._handle_notify_start: create (or replace) the session
keyed by the sequence byte. -/
def handleNotifyStart (p : RFIDDataParser) (data : List Nat) :
    RFIDDataParser × Option RFIDResult :=
  let sequence := byteAt data 1
  let filamentId := byteAt data 2
  let totalPackets := byteAt data 3
  let dataLength := byteAt data 4 <<< 8 ||| byteAt data 5
  let extruderId := byteAt data 6
  let dataSource := byteAt data 7
  let session : RFIDTransferSession :=
    { sequence := sequence, extruderId := extruderId, filamentId := filamentId,
      totalPackets := totalPackets, dataLength := dataLength,
      dataSource := dataSource, receivedPackets := [] }
  ({ p with activeSessions := insertKey p.activeSessions sequence session },
    some (.rfidStart extruderId filamentId (if dataSource = 0 then "rfid" else "manual")))

/-- RFIDDataParser._handle_response_start: like the notify start but with
bytes 2 and 6 carrying extruder and filament channel swapped. -/
def handleResponseStart (p : RFIDDataParser) (data : List Nat) :
    RFIDDataParser × Option RFIDResult :=
  let sequence := byteAt data 1
  let extruderId := byteAt data 2
  let totalPackets := byteAt data 3
  let dataLength := byteAt data 4 <<< 8 ||| byteAt data 5
  let filamentId := byteAt data 6
  let dataSource := byteAt data 7
  let session : RFIDTransferSession :=
    { sequence := sequence, extruderId := extruderId, filamentId := filamentId,
      totalPackets := totalPackets, dataLength := dataLength,
      dataSource := dataSource, receivedPackets := [] }
  ({ p with activeSessions := insertKey p.activeSessions sequence session },
    some (.rfidResponseStart extruderId filamentId))

/-- RFIDDataParser._handle_data_packet: store `data[4:4+valid_bytes]`
under key `packet_num` in the session keyed by the sequence byte; a
packet for an unknown sequence is dropped. -/
def handleDataPacket (p : RFIDDataParser) (data : List Nat) :
    RFIDDataParser × Option RFIDResult :=
  let sequence := byteAt data 1
  let packetNum := byteAt data 2
  let validBytes := byteAt data 3
  let packetData := (data.drop 4).take validBytes
  match lookupKey p.activeSessions sequence with
  | none => (p, none)
  | some session =>
    let session1 :=
      { session with receivedPackets := insertKey session.receivedPackets packetNum packetData }
    ({ p with activeSessions := insertKey p.activeSessions sequence session1 },
      some (.rfidPacket packetNum session.totalPackets))

/-- Helper for `_reassemble_data`: concatenate the stored chunks for the
consecutive indices `i, i+1, ..., i+count-1`, failing when one is
missing. -/
def collectFrom (received : List (Nat × List Nat)) (i count : Nat) : Option (List Nat) :=
  match count with
  | 0 => some []
  | c + 1 =>
    match lookupKey received i with
    | none => none
    | some chunk => (collectFrom received (i + 1) c).map (fun rest => chunk ++ rest)

/-- RFIDDataParser._reassemble_data: requires the stored-packet count to
equal `total_packets` and every index `1..total_packets` to be present;
the concatenation is truncated to `data_length`. -/
def reassembleData (session : RFIDTransferSession) : Option (List Nat) :=
  if session.receivedPackets.length ≠ session.totalPackets then none
  else (collectFrom session.receivedPackets 1 session.totalPackets).map
    (fun d => d.take session.dataLength)

/-- RFIDDataParser._handle_data_end: reassemble, verify the 16-bit
checksum against the low 16 bits of the byte sum, parse, and only on full
success store the record and delete the session.  The error paths return
an error result and leave `active_sessions` untouched. -/
def handleDataEnd (p : RFIDDataParser) (data : List Nat) :
    RFIDDataParser × Option RFIDResult :=
  let sequence := byteAt data 1
  let checksum := byteAt data 3 <<< 8 ||| byteAt data 4
  match lookupKey p.activeSessions sequence with
  | none => (p, none)
  | some session =>
    match reassembleData session with
    | none => (p, some (.rfidError "reassemble_failed"))
    | some rawData =>
      if rawData.sum % 65536 ≠ checksum then (p, some (.rfidError "checksum_failed"))
      else
        match parseOpentagData rawData with
        | none => (p, some (.rfidError "parse_failed"))
        | some filamentData =>
          ({ activeSessions := eraseKey p.activeSessions sequence,
             completedData := insertKey p.completedData session.extruderId filamentData },
            some (.rfidComplete session.extruderId session.filamentId filamentData))

/-- RFIDDataParser._handle_error. -/
def handleError (p : RFIDDataParser) (data : List Nat) :
    RFIDDataParser × Option RFIDResult :=
  (p, some (.rfidReadError (byteAt data 2) (byteAt data 3)))

/-- RFIDDataParser.handle_rfid_message: length check then dispatch on the
command byte. -/
def handleRfidMessage (p : RFIDDataParser) (data : List Nat) :
    RFIDDataParser × Option RFIDResult :=
  if data.length < 8 then (p, none)
  else
    let cmd := byteAt data 0
    if cmd = CMD_RFID_RAW_DATA_NOTIFY then handleNotifyStart p data
    else if cmd = CMD_RFID_RAW_DATA_RESPONSE then handleResponseStart p data
    else if cmd = CMD_RFID_DATA_PACKET then handleDataPacket p data
    else if cmd = CMD_RFID_DATA_END then handleDataEnd p data
    else if cmd = CMD_RFID_READ_ERROR then handleError p data
    else (p, none)

/-! ## klipper_monitor.py : the pieces read by the coordinator handlers -/

/-- A Python value as far as the coordinator inspects it: numbers,
strings, None, and (nested) string-keyed dictionaries. -/
inductive PyVal where
  | num (q : ℚ)
  | strv (s : String)
  | nonev
  | dict (entries : List (String × PyVal))

/-- Python `d.get(key)` on a value expected to be a dict (`None` default,
returned as `Option`). -/
def PyVal.getOpt : PyVal → String → Option PyVal
  | .dict entries, key => lookupStr entries key
  | _, _ => none

/-- Python `d.get(key, default)`. -/
def PyVal.getD (v : PyVal) (key : String) (dflt : PyVal) : PyVal :=
  (v.getOpt key).getD dflt

/-- The KlipperMonitor attributes read by the coordinator handlers under
verification. -/
structure KlipperMonitor where
  wsConnected : Bool
  printerState : String
  serverInfo : PyVal
  printStats : PyVal
  toolheadInfo : PyVal
  extruderInfo : PyVal
  extruder1Info : PyVal
  activeExtruder : Nat
  filamentSensorObjects : List String

/-- KlipperMonitor.get_printer_status: combines the server info and the
printer state under the two top-level keys `server` and `printer`; the
per-extruder dictionaries sit inside the `printer` entry. -/
def KlipperMonitor.getPrinterStatus (m : KlipperMonitor) : PyVal :=
  .dict [("server", m.serverInfo),
    ("printer", .dict [
      ("printer_state", .strv m.printerState),
      ("print_stats", m.printStats),
      ("toolhead", m.toolheadInfo),
      ("extruder", m.extruderInfo),
      ("extruder1", m.extruder1Info),
      ("active_extruder", .num m.activeExtruder),
      ("filament_present", .nonev),
      ("filament_sensors_status", .nonev)])]

/-! ## main.py : coordinator handlers -/

/-- FeederCabinetApp._get_extruder_temperature: reads
`get_printer_status()` and then looks up the key `extruder` (resp.
`extruder1`) at the top level of the returned dictionary, defaulting to
an empty dict, then reads `temperature`.  A non-numeric temperature value
makes `float(...)` raise, which the surrounding except turns into `None`,
so only a numeric value yields `some`.  The first guard mirrors
`if not self.klipper_monitor or not self.klipper_monitor.ws_connected`. -/
def getExtruderTemperature (klipperPresent : Bool) (m : KlipperMonitor)
    (extruder : Nat) : Option ℚ :=
  if ¬ (klipperPresent ∧ m.wsConnected) then none
  else
    let printerStatus := m.getPrinterStatus
    let extruderInfo : Option PyVal :=
      if extruder = 0 then some (printerStatus.getD "extruder" (.dict []))
      else if extruder = 1 then some (printerStatus.getD "extruder1" (.dict []))
      else none
    match extruderInfo with
    | none => none
    | some info =>
      match info.getOpt "temperature" with
      | some (.num t) => some t
      | _ => none

/-- Result of a G-code emitting helper: the commands actually handed to
the WebSocket in order, and the boolean the helper returns. -/
structure GcodeOutcome where
  gcode : List String
  success : Bool
deriving DecidableEq, Repr

/-- FeederCabinetApp._extrude_filament.  `execute_gcode` is a synchronous
method of KlipperMonitor (a plain `def` returning bool), but the helper
evaluates `await self.klipper_monitor.execute_gcode(gcode)`: the call
itself runs first, so with the link up `G1 E<amount> F600` is sent and
True is returned, and then awaiting that bool raises TypeError, which
the helper catches in its own except clause and returns False - `G92 E0`
is never sent (and even under an async reading a failed first send would
skip it).  With the link down the initial guard returns False without
sending anything. -/
def extrudeFilament (klipperPresent : Bool) (m : KlipperMonitor) (amount : Nat) :
    GcodeOutcome :=
  if ¬ (klipperPresent ∧ m.wsConnected) then ⟨[], false⟩
  else ⟨["G1 E" ++ toString amount ++ " F600"], false⟩

/-- Outcome of synchronously evaluating the call expression
`self.klipper_monitor.resume_print()` in main.py.  `resume_print` is a
plain `def`.  When `printer_state` is `paused` its body reaches
`self.can_comm.stop_feed(extruder=buffer)`; `stop_feed` is declared
`async def stop_feed(self, tube_id: int = 0)`, so binding the unexpected
keyword argument `extruder` raises TypeError immediately - before
`_prepare_for_resume` and before the RESUME command, so no CAN frame and
no G-code is sent.  When `printer_state` is not `paused` the method logs
and returns False without sending anything; the caller then awaits that
bool, which also raises TypeError.  Either way the evaluation sends
nothing and ends in a TypeError reaching the caller. -/
inductive ResumePrintEval where
  | raisedTypeError
  | returnedFalse
deriving DecidableEq, Repr

/-- Which of the two evaluation outcomes of `resume_print()` occurs, as
a function of the cached printer state. -/
def resumePrintEval (m : KlipperMonitor) : ResumePrintEval :=
  if m.printerState = "paused" then .raisedTypeError else .returnedFalse

/-- Outcome of the RESUMING branch of
FeederCabinetApp._handle_state_change_actions: all G-code sent during
the handler (by `_extrude_filament` and by `resume_print` internals -
the latter never get to send any, see `ResumePrintEval`), the evaluation
outcome of the `resume_print()` call when it is reached, and the reason
of the `transition_to(ERROR, ...)` issued, if any. -/
structure ResumingOutcome where
  gcode : List String
  resumePrintOutcome : Option ResumePrintEval
  errorReason : Option String
deriving DecidableEq, Repr

/-- The RESUMING branch of
FeederCabinetApp._handle_state_change_actions: query the temperature of
the payload extruder; when it is available and above 175 °C, pre-extrude
100 mm through `_extrude_filament` (entering ERROR with reason
`Failed to pre-extrude filament` and skipping the resume when that
returns False); otherwise fall through to
`if not await self.klipper_monitor.resume_print()`.  Evaluating that
expression first runs the synchronous `resume_print()` (see
`ResumePrintEval`): whether it raises TypeError itself or returns a bool
that the `await` then rejects with TypeError, the exception lands in the
except clause of `_handle_state_change_actions`, which issues
`transition_to(ERROR, reason=f"Exception in state handler: {e}")` - the
formatted exception text is abbreviated here to its fixed head.  The
`Failed to resume print after feeding` branch of the source is therefore
unreachable, and RESUME is never dispatched. -/
def handleResuming (klipperPresent : Bool) (m : KlipperMonitor) (extruder : Nat) :
    ResumingOutcome :=
  let resumeAttempt : List String → ResumingOutcome := fun gcode =>
    ⟨gcode, some (resumePrintEval m), some "Exception in state handler"⟩
  match getExtruderTemperature klipperPresent m extruder with
  | some t =>
    if t > 175 then
      let ext := extrudeFilament klipperPresent m 100
      if ext.success then resumeAttempt ext.gcode
      else ⟨ext.gcode, none, some "Failed to pre-extrude filament"⟩
    else resumeAttempt []
  | none => resumeAttempt []

/-- Outcome of the PAUSED branch of
FeederCabinetApp._handle_state_change_actions: the tube ids of the
`request_feed` calls issued, and the follow-up transition if any
(`FEEDING` on send success, `ERROR` on send failure, none when the state
stays PAUSED). -/
structure PausedOutcome where
  feedRequests : List Nat
  transition : Option SystemStateEnum
deriving DecidableEq, Repr

/-- The PAUSED branch of FeederCabinetApp._handle_state_change_actions.
The sensor check runs only when the source state is PRINTING, RESUMING or
RUNOUT; the active extruder defaults to 0 when the monitor is absent;
`filament_detected` defaults to True when the sensor state is not cached;
a cached empty reading triggers `request_feed` on the tube mapped to the
active extruder (defaulting to the extruder index itself).
`lastFilamentStatus` is the coordinator attribute `_last_filament_status`
(always initialised in `__init__`); `feedOk` is the boolean returned by
`can_comm.request_feed`. -/
def handlePausedEntry (oldState : SystemStateEnum) (klipperPresent : Bool)
    (m : KlipperMonitor) (lastFilamentStatus : List (String × Bool))
    (mapping : List (Nat × Nat)) (feedOk : Bool) : PausedOutcome :=
  if oldState = .PRINTING ∨ oldState = .RESUMING ∨ oldState = .RUNOUT then
    let extruder := if klipperPresent then m.activeExtruder else 0
    let filamentDetected :=
      if klipperPresent ∧ extruder < m.filamentSensorObjects.length then
        match lookupStr lastFilamentStatus (m.filamentSensorObjects.getD extruder "") with
        | some b => b
        | none => true
      else true
    if filamentDetected = false then
      let tubeId := (lookupKey mapping extruder).getD extruder
      ⟨[tubeId], some (if feedOk then .FEEDING else .ERROR)⟩
    else ⟨[], none⟩
  else ⟨[], none⟩

/-- Helper for the PRINTING runout scan of
FeederCabinetApp._handle_klipper_status_update: iterate over the sensor
object names (with running index `i`); a status entry reporting no
filament on the active extruder transitions to RUNOUT and stops the scan;
on a non-active extruder it is only noted.  `status` maps a sensor object
name to its `filament_detected` value when the update carries one. -/
def runoutScanFrom (status : List (String × Bool)) (active : Nat) :
    List String → Nat → Option (SystemStateEnum × Nat)
  | [], _ => none
  | name :: rest, i =>
    match lookupStr status name with
    | some hasFilament =>
      if hasFilament = false then
        if i = active then some (.RUNOUT, i)
        else runoutScanFrom status active rest (i + 1)
      else runoutScanFrom status active rest (i + 1)
    | none => runoutScanFrom status active rest (i + 1)

/-- The PRINTING-state runout scan of
FeederCabinetApp._handle_klipper_status_update (the `is_state(RUNOUT)`
guard inside is vacuous because the scan only runs while the system state
is PRINTING).  Returns the transition issued, if any, with its payload
extruder. -/
def printingRunoutScan (sensorObjects : List String) (status : List (String × Bool))
    (active : Nat) : Option (SystemStateEnum × Nat) :=
  runoutScanFrom status active sensorObjects 0

/-- The bitmap computation shared by
FeederCabinetApp._handle_filament_status_query and
_send_filament_status_notification: for every configured sensor entry
with both a name and an extruder index, when the cached sensor state is
present (default False), look up the tube mapped to the extruder and OR
in bit `tube`. -/
def bitmapStep (sensorStates : List (String × Bool)) (mapping : List (Nat × Nat))
    (bitmap : Nat) (cfg : Option String × Option Nat) : Nat :=
  match cfg.1, cfg.2 with
  | some name, some extruderIndex =>
    if (lookupStr sensorStates name).getD false then
      match lookupKey mapping extruderIndex with
      | some tubeIndex => bitmap ||| (1 <<< tubeIndex)
      | none => bitmap
    else bitmap
  | _, _ => bitmap

def computeStatusBitmap (sensorStates : List (String × Bool))
    (mapping : List (Nat × Nat)) (sensorsCfg : List (Option String × Option Nat)) : Nat :=
  sensorsCfg.foldl (bitmapStep sensorStates mapping) 0

/-- FeederCabinetApp._handle_filament_status_query: the list of
`FILAMENT_STATUS_RESPONSE` frames sent for one query.  An absent monitor
or a disconnected printer link answers invalid with bitmap 0; otherwise
the computed bitmap is sent as valid.  `canPresent` mirrors the
`if self.can_comm` guards. -/
def handleFilamentStatusQuery (klipperPresent wsConnected canPresent : Bool)
    (sensorStates : List (String × Bool)) (mapping : List (Nat × Nat))
    (sensorsCfg : List (Option String × Option Nat)) : List CANFrame :=
  if ¬ klipperPresent then
    if canPresent then [filamentStatusResponseFrame false 0] else []
  else if ¬ wsConnected then
    if canPresent then [filamentStatusResponseFrame false 0] else []
  else if canPresent then
    [filamentStatusResponseFrame true (computeStatusBitmap sensorStates mapping sensorsCfg)]
  else []

/-- FeederCabinetApp._send_filament_status_notification: sends one valid
bitmap frame when the monitor, the printer link and the CAN link are all
up; sends nothing otherwise. -/
def sendFilamentStatusNotificationFrames (klipperPresent wsConnected canPresent
    canConnected : Bool) (sensorStates : List (String × Bool))
    (mapping : List (Nat × Nat)) (sensorsCfg : List (Option String × Option Nat)) :
    List CANFrame :=
  if ¬ klipperPresent then []
  else if ¬ wsConnected then []
  else if ¬ (canPresent ∧ canConnected) then []
  else [filamentStatusResponseFrame true (computeStatusBitmap sensorStates mapping sensorsCfg)]

/-- FeederCabinetApp._handle_feeder_mapping_set: store
`{0: left_tube, 1: right_tube}` as the new `extruders.mapping`, persist
(`saveOk` is the boolean returned by `_save_config`), answer with a
`FEEDER_MAPPING_RESPONSE` carrying the received values and status 0 on
persistence success and 1 on failure, and after a successful save re-send
the filament status notification, which now computes its bitmap under the
new mapping.  Returns the new in-memory mapping and the frames sent in
order. -/
def handleFeederMappingSet (leftTube rightTube : Nat) (saveOk : Bool)
    (klipperPresent wsConnected canPresent canConnected : Bool)
    (sensorStates : List (String × Bool))
    (sensorsCfg : List (Option String × Option Nat)) :
    List (Nat × Nat) × List CANFrame :=
  let newMapping : List (Nat × Nat) := [(0, leftTube), (1, rightTube)]
  let frames :=
    if canPresent then
      feederMappingResponseFrame leftTube rightTube (if saveOk then 0 else 1) ::
        (if saveOk then
          sendFilamentStatusNotificationFrames klipperPresent wsConnected canPresent
            canConnected sensorStates newMapping sensorsCfg
        else [])
    else []
  (newMapping, frames)

/-! ## Helper lemmas on the association-list dictionary model -/

theorem lookupKey_insertKey_self {α : Type} (l : List (Nat × α)) (k : Nat) (v : α) :
    lookupKey (insertKey l k v) k = some v := by
  induction l with
  | nil => simp [insertKey, lookupKey]
  | cons hd tl ih =>
    obtain ⟨k₀, v₀⟩ := hd
    by_cases h : k₀ = k
    · simp [insertKey, h, lookupKey]
    · simp [insertKey, h, lookupKey, ih]

theorem lookupKey_mem_fst {α : Type} {l : List (Nat × α)} {k : Nat} {v : α}
    (h : lookupKey l k = some v) : k ∈ l.map Prod.fst := by
  induction l with
  | nil => simp [lookupKey] at h
  | cons hd tl ih =>
    obtain ⟨k₀, v₀⟩ := hd
    by_cases hk : k₀ = k
    · simp [hk]
    · simp only [lookupKey, if_neg hk] at h
      simp [ih h]

theorem lookupKey_eq_none {α : Type} {l : List (Nat × α)} {k : Nat}
    (h : k ∉ l.map Prod.fst) : lookupKey l k = none := by
  cases hl : lookupKey l k with
  | none => rfl
  | some v => exact absurd (lookupKey_mem_fst hl) h

theorem lookupKey_eraseKey_self {α : Type} {l : List (Nat × α)}
    (h : (l.map Prod.fst).Nodup) (k : Nat) : lookupKey (eraseKey l k) k = none := by
  induction l with
  | nil => simp [eraseKey, lookupKey]
  | cons hd tl ih =>
    obtain ⟨k₀, v₀⟩ := hd
    simp only [List.map_cons, List.nodup_cons] at h
    by_cases hk : k₀ = k
    · simp only [eraseKey, if_pos hk]
      exact lookupKey_eq_none (by rw [← hk]; exact h.1)
    · simp only [eraseKey, if_neg hk, lookupKey, if_neg hk]
      exact ih h.2

/-! ## Claim C10 -/

/-- C10: calling the transition_to method of the state manager with a target state
equal to the current state is a complete no-op: it returns without
invoking the state-change callback and without modifying the stored state
or the stored payload, even when new keyword-argument payload values are
supplied. -/
theorem transitionTo_self_noop (m : StateManager) (s : SystemStateEnum) (kwargs : Payload)
    (h : m.state = s) : m.transitionTo s kwargs = (m, none) := by
  simp [StateManager.transitionTo, h]

/-- Witness for C10 at a concrete manager and a fresh payload. -/
theorem transitionTo_self_noop_witness :
    (⟨.PRINTING, []⟩ : StateManager).state = .PRINTING ∧
    (⟨.PRINTING, []⟩ : StateManager).transitionTo .PRINTING [("extruder", .intVal 1)] =
      (⟨.PRINTING, []⟩, none) :=
  ⟨rfl, transitionTo_self_noop ⟨.PRINTING, []⟩ .PRINTING [("extruder", .intVal 1)] rfl⟩

/-! ## Claim C9 -/

/-- C9 counterexample: a handshake response frame on the handshake-receive
identifier with data `[0x05, 0x00]` has length at least 1 and first byte
0x05, yet the handshake fails, because the source compares the whole data
list against `[0x05]` instead of ignoring excess bytes. -/
theorem handshake_excess_bytes_rejected :
    (1 ≤ ([0x05, 0x00] : List Nat).length ∧ byteAt [0x05, 0x00] 0 = 0x05) ∧
    performHandshakeDecision (some ⟨HANDSHAKE_RECEIVE_ID, [0x05, 0x00]⟩) = false := by
  decide

/-- C9 amended: the CAN handshake succeeds exactly when the first frame
delivered within the 5 s window carries the handshake-receive identifier
and data exactly equal to `[0x05]`; a frame with any other data (longer
data included) fails the handshake, and the absence of any frame within
the window fails it. -/
theorem performHandshakeDecision_spec (r : Option CANFrame) :
    performHandshakeDecision r = true ↔
      r = some ⟨HANDSHAKE_RECEIVE_ID, HANDSHAKE_RESPONSE⟩ := by
  cases r with
  | none => simp [performHandshakeDecision]
  | some msg =>
    obtain ⟨id, data⟩ := msg
    by_cases h : id = HANDSHAKE_RECEIVE_ID ∧ data = HANDSHAKE_RESPONSE
    · simp [performHandshakeDecision, h, h.1, h.2]
    · simp only [performHandshakeDecision, if_neg h]
      constructor
      · intro hc; exact absurd hc (by simp)
      · intro hc
        exact absurd ⟨congrArg CANFrame.arbitrationId (Option.some.inj hc),
          congrArg CANFrame.data (Option.some.inj hc)⟩ h

/-! ## Claim C5 -/

/-- C5 counterexample: a SET_FEEDER_MAPPING frame whose bytes 1 and 2 are
each below 2 and distinct is nevertheless ignored when byte 3 is not
0x00, so the stated acceptance condition is not sufficient. -/
theorem mapping_set_byte3_required :
    (byteAt [0x0F, 0x00, 0x01, 0x01, 0, 0, 0, 0] 1 < 2 ∧
      byteAt [0x0F, 0x00, 0x01, 0x01, 0, 0, 0, 0] 2 < 2 ∧
      byteAt [0x0F, 0x00, 0x01, 0x01, 0, 0, 0, 0] 1 ≠
        byteAt [0x0F, 0x00, 0x01, 0x01, 0, 0, 0, 0] 2) ∧
    receiveClassify ⟨RECEIVE_ID, [0x0F, 0x00, 0x01, 0x01, 0, 0, 0, 0]⟩ = .ignored := by
  decide

/-- C5 amended: an incoming SET_FEEDER_MAPPING frame on the
cabinet-to-printer identifier invokes the mapping_set callback if and
only if the data has length at least 4, byte 3 equals 0x00, and bytes 1
and 2 are each below 2 and distinct; every frame failing this condition
is silently ignored (no callback, no response). -/
theorem receiveClassify_mapping_set_spec (d : List Nat)
    (h : byteAt d 0 = CMD_SET_FEEDER_MAPPING) :
    receiveClassify ⟨RECEIVE_ID, d⟩ =
      if 4 ≤ d.length ∧ byteAt d 3 = 0x00 ∧ byteAt d 1 < 2 ∧ byteAt d 2 < 2 ∧
          byteAt d 1 ≠ byteAt d 2 then
        .mappingSetCallback (byteAt d 1) (byteAt d 2) (byteAt d 3)
      else .ignored := by
  have hd : d ≠ [] := by
    intro hnil
    rw [hnil] at h
    simp [byteAt, CMD_SET_FEEDER_MAPPING] at h
  simp [receiveClassify, hd, h, RECEIVE_ID, CMD_QUERY_PRINTER_FILAMENT_STATUS,
    CMD_SET_FEEDER_MAPPING, CMD_RFID_RAW_DATA_NOTIFY, CMD_RFID_RAW_DATA_RESPONSE,
    CMD_RFID_DATA_PACKET, CMD_RFID_DATA_END, CMD_RFID_READ_ERROR]

/-- Witness for C5 amended at an accepted concrete frame. -/
theorem receiveClassify_mapping_set_spec_witness :
    byteAt [0x0F, 0x01, 0x00, 0x00, 0, 0, 0, 0] 0 = CMD_SET_FEEDER_MAPPING ∧
    receiveClassify ⟨RECEIVE_ID, [0x0F, 0x01, 0x00, 0x00, 0, 0, 0, 0]⟩ =
      if 4 ≤ ([0x0F, 0x01, 0x00, 0x00, 0, 0, 0, 0] : List Nat).length ∧
          byteAt [0x0F, 0x01, 0x00, 0x00, 0, 0, 0, 0] 3 = 0x00 ∧
          byteAt [0x0F, 0x01, 0x00, 0x00, 0, 0, 0, 0] 1 < 2 ∧
          byteAt [0x0F, 0x01, 0x00, 0x00, 0, 0, 0, 0] 2 < 2 ∧
          byteAt [0x0F, 0x01, 0x00, 0x00, 0, 0, 0, 0] 1 ≠
            byteAt [0x0F, 0x01, 0x00, 0x00, 0, 0, 0, 0] 2 then
        .mappingSetCallback (byteAt [0x0F, 0x01, 0x00, 0x00, 0, 0, 0, 0] 1)
          (byteAt [0x0F, 0x01, 0x00, 0x00, 0, 0, 0, 0] 2)
          (byteAt [0x0F, 0x01, 0x00, 0x00, 0, 0, 0, 0] 3)
      else .ignored :=
  ⟨by decide, receiveClassify_mapping_set_spec [0x0F, 0x01, 0x00, 0x00, 0, 0, 0, 0] (by decide)⟩

/-! ## Claim C3 -/

theorem runoutScanFrom_eq_some (status : List (String × Bool)) (active : Nat) :
    ∀ (sensors : List String) (i : Nat) (t : SystemStateEnum × Nat),
      runoutScanFrom status active sensors i = some t ↔
        (t = (.RUNOUT, active) ∧ i ≤ active ∧ active - i < sensors.length ∧
          lookupStr status (sensors.getD (active - i) "") = some false) := by
  intro sensors
  induction sensors with
  | nil => intro i t; simp [runoutScanFrom]
  | cons name rest ih =>
    intro i t
    simp only [runoutScanFrom]
    rcases hl : lookupStr status name with _ | b
    · rw [ih (i + 1) t]
      constructor
      · rintro ⟨ht, hi, hlt, hfind⟩
        refine ⟨ht, by omega, by simp; omega, ?_⟩
        have : active - i = (active - (i + 1)) + 1 := by omega
        rw [this, List.getD_cons_succ]
        exact hfind
      · rintro ⟨ht, hi, hlt, hfind⟩
        rcases Nat.eq_or_lt_of_le hi with heq | hgt
        · rw [← heq] at hfind
          simp [List.getD_cons_zero] at hfind
          rw [hfind] at hl
          cases hl
        · refine ⟨ht, by omega, by simp at hlt; omega, ?_⟩
          have : active - i = (active - (i + 1)) + 1 := by omega
          rw [this, List.getD_cons_succ] at hfind
          exact hfind
    · by_cases hb : b = false
      · subst hb
        simp only [reduceIte]
        by_cases hi : i = active
        · subst hi
          simp only [if_pos rfl]
          constructor
          · rintro ht
            have ht1 : some (SystemStateEnum.RUNOUT, i) = some t := by
              simpa using ht
            exact ⟨(Option.some.inj ht1).symm, le_refl i, by simp, by simp [hl]⟩
          · rintro ⟨ht, _, _, _⟩
            simp [ht]
        · simp only [if_neg hi]
          rw [ih (i + 1) t]
          constructor
          · rintro ⟨ht, hle, hlt, hfind⟩
            refine ⟨ht, by omega, by simp; omega, ?_⟩
            have : active - i = (active - (i + 1)) + 1 := by omega
            rw [this, List.getD_cons_succ]
            exact hfind
          · rintro ⟨ht, hle, hlt, hfind⟩
            have hgt : i < active := by omega
            refine ⟨ht, by omega, by simp at hlt; omega, ?_⟩
            have : active - i = (active - (i + 1)) + 1 := by omega
            rw [this, List.getD_cons_succ] at hfind
            exact hfind
      · have hb1 : b = true := by cases b <;> simp_all
        subst hb1
        simp only [Bool.true_eq_false, reduceIte]
        rw [ih (i + 1) t]
        constructor
        · rintro ⟨ht, hle, hlt, hfind⟩
          refine ⟨ht, by omega, by simp; omega, ?_⟩
          have : active - i = (active - (i + 1)) + 1 := by omega
          rw [this, List.getD_cons_succ]
          exact hfind
        · rintro ⟨ht, hle, hlt, hfind⟩
          rcases Nat.eq_or_lt_of_le hle with heq | hgt
          · rw [← heq] at hfind
            simp [List.getD_cons_zero] at hfind
            rw [hfind] at hl
            cases hl
          · refine ⟨ht, by omega, by simp at hlt; omega, ?_⟩
            have : active - i = (active - (i + 1)) + 1 := by omega
            rw [this, List.getD_cons_succ] at hfind
            exact hfind

/-- C3: in the PRINTING-state runout scan of
_handle_klipper_status_update, a runout indication on a sensor whose
extruder index differs from the active extruder never causes a state
transition (it is only logged), and the scan issues a transition, always
to RUNOUT with the active extruder as payload, exactly when the status
update reports no filament on the own sensor of the active extruder. -/
theorem printingRunoutScan_spec (sensorObjects : List String)
    (status : List (String × Bool)) (active : Nat) :
    (∀ t, printingRunoutScan sensorObjects status active = some t →
      t = (.RUNOUT, active)) ∧
    (printingRunoutScan sensorObjects status active = some (.RUNOUT, active) ↔
      (active < sensorObjects.length ∧
        lookupStr status (sensorObjects.getD active "") = some false)) := by
  constructor
  · intro t ht
    exact ((runoutScanFrom_eq_some status active sensorObjects 0 t).mp ht).1
  · rw [printingRunoutScan, runoutScanFrom_eq_some status active sensorObjects 0]
    simp

/-! ## Claim C2 -/

/-- C2 amended: the PAUSED entry action checks the active-extruder
cached sensor state only when the source state is PRINTING, RESUMING or
RUNOUT; in that case a cached empty reading triggers exactly one feed
request for the tube mapped to the active extruder followed by a
transition to FEEDING when the send succeeds (ERROR when it fails), and a
present or unavailable reading keeps the machine in PAUSED.  A transition
into PAUSED from IDLE performs no sensor check and issues no feed
request. -/
theorem handlePausedEntry_spec (oldState : SystemStateEnum) (klipperPresent : Bool)
    (m : KlipperMonitor) (lastFilamentStatus : List (String × Bool))
    (mapping : List (Nat × Nat)) (feedOk : Bool) :
    handlePausedEntry oldState klipperPresent m lastFilamentStatus mapping feedOk =
      if (oldState = .PRINTING ∨ oldState = .RESUMING ∨ oldState = .RUNOUT) ∧
          klipperPresent = true ∧
          m.activeExtruder < m.filamentSensorObjects.length ∧
          lookupStr lastFilamentStatus
            (m.filamentSensorObjects.getD m.activeExtruder "") = some false then
        ⟨[(lookupKey mapping m.activeExtruder).getD m.activeExtruder],
          some (if feedOk then .FEEDING else .ERROR)⟩
      else ⟨[], none⟩ := by
  by_cases hold : oldState = .PRINTING ∨ oldState = .RESUMING ∨ oldState = .RUNOUT
  · cases klipperPresent with
    | false => simp [handlePausedEntry, hold]
    | true =>
      by_cases hlen : m.activeExtruder < m.filamentSensorObjects.length
      · rcases hfind : lookupStr lastFilamentStatus
            (m.filamentSensorObjects.getD m.activeExtruder "") with _ | b
        · rw [List.getD_eq_getElem _ _ hlen] at hfind
          simp [handlePausedEntry, hold, hlen, hfind]
        · rw [List.getD_eq_getElem _ _ hlen] at hfind
          rcases b <;> simp [handlePausedEntry, hold, hlen, hfind]
      · simp [handlePausedEntry, hold, hlen]
  · simp [handlePausedEntry, hold]

/-- Monitor used by the C2 counterexample: printer link up, active
extruder 0 with the default sensor objects. -/
def pausedIdleMonitor : KlipperMonitor :=
  { wsConnected := true, printerState := "paused", serverInfo := .nonev,
    printStats := .nonev, toolheadInfo := .nonev, extruderInfo := .nonev,
    extruder1Info := .nonev, activeExtruder := 0,
    filamentSensorObjects := ["filament_switch_sensor Filament_Sensor0",
      "filament_switch_sensor Filament_Sensor1"] }

/-- C2 counterexample: entering PAUSED from IDLE while the cached state
of the sensor of the active extruder reports empty issues no feed request and
no transition, because the source only checks the sensor when the old
state is PRINTING, RESUMING or RUNOUT. -/
theorem pausedEntry_from_idle_no_feed :
    lookupStr [("filament_switch_sensor Filament_Sensor0", false)]
      (pausedIdleMonitor.filamentSensorObjects.getD pausedIdleMonitor.activeExtruder "") =
        some false ∧
    handlePausedEntry .IDLE true pausedIdleMonitor
      [("filament_switch_sensor Filament_Sensor0", false)] [(0, 1)] true =
      ⟨[], none⟩ := by
  constructor
  · rfl
  · rfl

/-! ## Claim C1 -/

theorem getExtruderTemperature_eq_none (klipperPresent : Bool) (m : KlipperMonitor)
    (extruder : Nat) : getExtruderTemperature klipperPresent m extruder = none := by
  by_cases hc : klipperPresent ∧ m.wsConnected
  · by_cases h0 : extruder = 0
    · simp [getExtruderTemperature, hc, h0, KlipperMonitor.getPrinterStatus,
        PyVal.getD, PyVal.getOpt, lookupStr]
    · by_cases h1 : extruder = 1
      · simp [getExtruderTemperature, hc, h0, h1, KlipperMonitor.getPrinterStatus,
          PyVal.getD, PyVal.getOpt, lookupStr]
      · simp [getExtruderTemperature, hc, h0, h1]
  · simp [getExtruderTemperature, hc]

/-- C1 amended: on the FEEDING to RESUMING transition the coordinator
never emits any prime-extrusion G-code: `_get_extruder_temperature`
looks up the key `extruder` (resp. `extruder1`) at the top level of the
dictionary returned by `get_printer_status`, whose only top-level keys
are `server` and `printer`, so the temperature read always yields None
and the above-175-degree branch is unreachable.  The handler then
reaches `await self.klipper_monitor.resume_print()`; `resume_print` is
synchronous, so its evaluation either raises TypeError at the
`stop_feed(extruder=...)` keyword mismatch (printer paused) or returns
False which the await rejects with TypeError (printer not paused) -
either way no RESUME or other G-code is sent and every RESUMING entry
ends in `transition_to(ERROR, "Exception in state handler: ...")`.
Separately, `_extrude_filament` sends at most `G1 E<amount> F600` - no
`G91`, no `G90`, and (the await on the synchronous `execute_gcode`
raising) never `G92 E0` - and always returns False. -/
theorem handleResuming_never_primes (klipperPresent : Bool) (m : KlipperMonitor)
    (extruder : Nat) :
    getExtruderTemperature klipperPresent m extruder = none ∧
    handleResuming klipperPresent m extruder =
      ⟨[], some (resumePrintEval m), some "Exception in state handler"⟩ ∧
    (resumePrintEval m = .raisedTypeError ↔ m.printerState = "paused") ∧
    (∀ amount : Nat, extrudeFilament klipperPresent m amount =
      if klipperPresent ∧ m.wsConnected then
        ⟨["G1 E" ++ toString amount ++ " F600"], false⟩
      else ⟨[], false⟩) := by
  refine ⟨getExtruderTemperature_eq_none klipperPresent m extruder, ?_, ?_, ?_⟩
  · simp [handleResuming, getExtruderTemperature_eq_none]
  · by_cases hp : m.printerState = "paused"
    · simp [resumePrintEval, hp]
    · simp [resumePrintEval, hp]
  · intro amount
    by_cases hc : klipperPresent ∧ m.wsConnected
    · simp [extrudeFilament, hc]
    · simp [extrudeFilament, hc]

/-- Monitor used by the C1 counterexample: printer link up, snapshot
holding an extruder temperature of 200 °C (inside the nested `printer`
entry, exactly where `get_printer_status` puts it). -/
def resumingHotMonitor : KlipperMonitor :=
  { wsConnected := true, printerState := "paused", serverInfo := .nonev,
    printStats := .dict [("state", .strv "paused")],
    toolheadInfo := .dict [("extruder", .strv "extruder")],
    extruderInfo := .dict [("temperature", .num 200), ("target", .num 210)],
    extruder1Info := .dict [], activeExtruder := 0,
    filamentSensorObjects := ["filament_switch_sensor Filament_Sensor0",
      "filament_switch_sensor Filament_Sensor1"] }

/-- C1 counterexample: with the active extruder at 200 °C (above 175 °C),
every link up and the printer paused, the RESUMING entry action emits no
G-code at all — in particular neither `G91` nor `G1 E100 F600` — and no
resume happens either: the temperature lookup misses the nested snapshot
and returns None, and the attempted `resume_print()` raises TypeError at
the `stop_feed(extruder=...)` call, so the handler issues
`transition_to(ERROR, "Exception in state handler: ...")` instead of the
claimed prime-then-resume sequence. -/
theorem resuming_hot_no_prime :
    resumingHotMonitor.extruderInfo.getOpt "temperature" = some (.num 200) ∧
    ((200 : ℚ) > 175) ∧
    handleResuming true resumingHotMonitor 0 =
      ⟨[], some .raisedTypeError, some "Exception in state handler"⟩ := by
  refine ⟨rfl, by norm_num, rfl⟩

/-! ## Claim C6 -/

theorem testBit_bitmapStep (sensorStates : List (String × Bool))
    (mapping : List (Nat × Nat)) (acc : Nat) (cfg : Option String × Option Nat) (t : Nat) :
    ((bitmapStep sensorStates mapping acc cfg).testBit t = true) ↔
      (acc.testBit t = true ∨ ∃ name ex, cfg = (some name, some ex) ∧
        lookupStr sensorStates name = some true ∧ lookupKey mapping ex = some t) := by
  obtain ⟨nameOpt, exOpt⟩ := cfg
  rcases nameOpt with _ | name
  · simp [bitmapStep]
  rcases exOpt with _ | ex
  · simp [bitmapStep]
  rcases hfound : lookupStr sensorStates name with _ | b
  · simp [bitmapStep, hfound]
  rcases b with _ | _
  · simp [bitmapStep, hfound]
  rcases hmap : lookupKey mapping ex with _ | tube
  · simp [bitmapStep, hfound, hmap]
  have hstep : bitmapStep sensorStates mapping acc (some name, some ex) =
      acc ||| (1 <<< tube) := by
    simp [bitmapStep, hfound, hmap]
  rw [hstep, Nat.testBit_or, Nat.one_shiftLeft, Nat.testBit_two_pow]
  constructor
  · intro h
    rcases Bool.or_eq_true_iff.mp h with h1 | h2
    · exact Or.inl h1
    · exact Or.inr ⟨name, ex, rfl, hfound, by rw [hmap, of_decide_eq_true h2]⟩
  · rintro (h1 | ⟨x, y, hxy, hfound2, h2⟩)
    · rw [h1, Bool.true_or]
    · obtain ⟨hx, hy⟩ := Prod.mk.inj hxy
      obtain rfl : x = name := (Option.some.inj hx).symm
      obtain rfl : y = ex := (Option.some.inj hy).symm
      rw [hmap] at h2
      obtain rfl : tube = t := Option.some.inj h2
      simp

theorem testBit_bitmap_foldl (sensorStates : List (String × Bool))
    (mapping : List (Nat × Nat)) :
    ∀ (cfgs : List (Option String × Option Nat)) (acc t : Nat),
      ((cfgs.foldl (bitmapStep sensorStates mapping) acc).testBit t = true) ↔
        (acc.testBit t = true ∨ ∃ name ex, (some name, some ex) ∈ cfgs ∧
          lookupStr sensorStates name = some true ∧ lookupKey mapping ex = some t) := by
  intro cfgs
  induction cfgs with
  | nil => intro acc t; simp
  | cons c l ih =>
    intro acc t
    rw [List.foldl_cons, ih (bitmapStep sensorStates mapping acc c) t,
      testBit_bitmapStep sensorStates mapping acc c t]
    constructor
    · rintro ((h1 | ⟨name, ex, rfl, h3, h4⟩) | ⟨name, ex, h2, h3, h4⟩)
      · exact Or.inl h1
      · exact Or.inr ⟨name, ex, List.mem_cons_self _ _, h3, h4⟩
      · exact Or.inr ⟨name, ex, List.mem_cons_of_mem _ h2, h3, h4⟩
    · rintro (h1 | ⟨name, ex, h2, h3, h4⟩)
      · exact Or.inl (Or.inl h1)
      · rcases List.mem_cons.mp h2 with h2 | h2
        · exact Or.inl (Or.inr ⟨name, ex, h2.symm, h3, h4⟩)
        · exact Or.inr ⟨name, ex, h2, h3, h4⟩

/-- C6: for every QUERY_FILAMENT_STATUS received with the CAN link
object present, exactly one FILAMENT_STATUS_RESPONSE is emitted: valid
with the computed bitmap when the printer link is connected, invalid with
bitmap 0 otherwise; and the bitmap has bit `t` set exactly for a
configured sensor whose cached state reports filament present and whose
extruder is mapped to tube `t`. -/
theorem handleFilamentStatusQuery_spec (klipperPresent wsConnected : Bool)
    (sensorStates : List (String × Bool)) (mapping : List (Nat × Nat))
    (sensorsCfg : List (Option String × Option Nat)) :
    (handleFilamentStatusQuery klipperPresent wsConnected true sensorStates mapping
        sensorsCfg =
      if klipperPresent ∧ wsConnected then
        [filamentStatusResponseFrame true
          (computeStatusBitmap sensorStates mapping sensorsCfg)]
      else [filamentStatusResponseFrame false 0]) ∧
    (∀ t, ((computeStatusBitmap sensorStates mapping sensorsCfg).testBit t = true) ↔
      ∃ name ex, (some name, some ex) ∈ sensorsCfg ∧
        lookupStr sensorStates name = some true ∧ lookupKey mapping ex = some t) := by
  constructor
  · cases klipperPresent <;> cases wsConnected <;>
      simp [handleFilamentStatusQuery]
  · intro t
    rw [computeStatusBitmap, testBit_bitmap_foldl]
    simp

/-! ## Claim C4 -/

/-- C4: for every accepted SET_FEEDER_MAPPING with values in {0,1} and
distinct, handled with the CAN object present and, for the re-emission,
the printer and CAN links connected: the in-memory (and, on save success,
persisted) `extruders.mapping` becomes `{0: l, 1: r}`; the reply is a
FEEDER_MAPPING_RESPONSE carrying the same `(l, r)` with status 0 on
persistence success and status 1 on failure; and after a successful save
the filament bitmap is re-emitted computed under the new mapping. -/
theorem handleFeederMappingSet_spec (l r : Nat) (saveOk : Bool)
    (sensorStates : List (String × Bool))
    (sensorsCfg : List (Option String × Option Nat))
    (hl : l < 2) (hr : r < 2) (hlr : l ≠ r) :
    (handleFeederMappingSet l r saveOk true true true true sensorStates sensorsCfg).1 =
      [(0, l), (1, r)] ∧
    (handleFeederMappingSet l r saveOk true true true true sensorStates sensorsCfg).2 =
      feederMappingResponseFrame l r (if saveOk then 0 else 1) ::
        (if saveOk then
          [filamentStatusResponseFrame true
            (computeStatusBitmap sensorStates [(0, l), (1, r)] sensorsCfg)]
        else []) := by
  refine ⟨rfl, ?_⟩
  cases saveOk <;>
    simp [handleFeederMappingSet, sendFilamentStatusNotificationFrames]

/-- Witness for C4: left tube mapped to extruder 1, right to extruder 0,
save succeeding, with extruder 0 reporting filament present; the bitmap
under the new mapping has bit 1 set. -/
theorem handleFeederMappingSet_spec_witness :
    (1 < 2 ∧ 0 < 2 ∧ (1 : Nat) ≠ 0) ∧
    (handleFeederMappingSet 1 0 true true true true true [("Filament_Sensor0", true)]
        [(some "Filament_Sensor0", some 0)]).1 = [(0, 1), (1, 0)] ∧
    (handleFeederMappingSet 1 0 true true true true true [("Filament_Sensor0", true)]
        [(some "Filament_Sensor0", some 0)]).2 =
      feederMappingResponseFrame 1 0 (if true then 0 else 1) ::
        (if true then
          [filamentStatusResponseFrame true
            (computeStatusBitmap [("Filament_Sensor0", true)] [(0, 1), (1, 0)]
              [(some "Filament_Sensor0", some 0)])]
        else []) :=
  ⟨by decide, handleFeederMappingSet_spec 1 0 true [("Filament_Sensor0", true)]
    [(some "Filament_Sensor0", some 0)] (by decide) (by decide) (by decide)⟩

/-! ## Claims C7 and C8 : RFID reassembly -/

theorem collectFrom_isSome (received : List (Nat × List Nat)) :
    ∀ (count i : Nat), (collectFrom received i count).isSome ↔
      ∀ j, i ≤ j → j < i + count → (lookupKey received j).isSome := by
  intro count
  induction count with
  | zero =>
    intro i
    simp only [collectFrom, Option.isSome_some, true_iff]
    intro j h1 h2
    omega
  | succ c ih =>
    intro i
    simp only [collectFrom]
    rcases hk : lookupKey received i with _ | chunk
    · simp only [Option.isSome_none, Bool.false_eq_true, false_iff]
      intro h
      have := h i (le_refl i) (by omega)
      rw [hk] at this
      cases this
    · show (Option.map (fun rest => chunk ++ rest) (collectFrom received (i + 1) c)).isSome =
          true ↔ ∀ j, i ≤ j → j < i + (c + 1) → (lookupKey received j).isSome = true
      rw [Option.isSome_map']
      rw [ih (i + 1)]
      constructor
      · intro h j h1 h2
        rcases Nat.eq_or_lt_of_le h1 with heq | hgt
        · rw [← heq, hk]; rfl
        · exact h j hgt (by omega)
      · intro h j h1 h2
        exact h j (by omega) (by omega)

theorem reassembleData_isSome (s : RFIDTransferSession) :
    (reassembleData s).isSome ↔
      (s.receivedPackets.length = s.totalPackets ∧
        ∀ j, 1 ≤ j → j ≤ s.totalPackets → (lookupKey s.receivedPackets j).isSome) := by
  rw [reassembleData]
  by_cases hlen : s.receivedPackets.length ≠ s.totalPackets
  · simp only [if_pos hlen, Option.isSome_none, Bool.false_eq_true, false_iff]
    intro h
    exact hlen h.1
  · push_neg at hlen
    simp only [if_neg (by omega : ¬ s.receivedPackets.length ≠ s.totalPackets),
      Option.isSome_map']
    rw [collectFrom_isSome s.receivedPackets s.totalPackets 1]
    constructor
    · intro h
      exact ⟨hlen, fun j h1 h2 => h j h1 (by omega)⟩
    · intro h j h1 h2
      exact h.2 j h1 (by omega)

theorem parseOpentagData_isSome (d : List Nat) :
    (parseOpentagData d).isSome ↔ 89 ≤ d.length := by
  rw [parseOpentagData]
  by_cases h : d.length < 89
  · simp only [if_pos h, Option.isSome_none, Bool.false_eq_true, false_iff]
    omega
  · simp only [if_neg h, Option.isSome_some, true_iff]
    omega

theorem reassembleData_key_bound (s : RFIDTransferSession) (b : List Nat)
    (hr : reassembleData s = some b) :
    ∀ k, (lookupKey s.receivedPackets k).isSome → 1 ≤ k ∧ k ≤ s.totalPackets := by
  have hsome : (reassembleData s).isSome := by rw [hr]; rfl
  rw [reassembleData_isSome] at hsome
  obtain ⟨hlen, hall⟩ := hsome
  intro k hk
  by_contra hcon
  push_neg at hcon
  have hout : k = 0 ∨ s.totalPackets < k := by
    rcases Nat.eq_zero_or_pos k with h0 | h1
    · exact Or.inl h0
    · exact Or.inr (hcon h1)
  have hmem : k ∈ (s.receivedPackets.map Prod.fst).toFinset := by
    rcases Option.isSome_iff_exists.mp hk with ⟨v, hv⟩
    exact List.mem_toFinset.mpr (lookupKey_mem_fst hv)
  have hsub : Finset.Icc 1 s.totalPackets ⊆ (s.receivedPackets.map Prod.fst).toFinset := by
    intro j hj
    rw [Finset.mem_Icc] at hj
    rcases Option.isSome_iff_exists.mp (hall j hj.1 hj.2) with ⟨v, hv⟩
    exact List.mem_toFinset.mpr (lookupKey_mem_fst hv)
  have hknot : k ∉ Finset.Icc 1 s.totalPackets := by
    rw [Finset.mem_Icc]
    rintro ⟨h1, h2⟩
    rcases hout with h0 | hgt <;> omega
  have hins : insert k (Finset.Icc 1 s.totalPackets) ⊆
      (s.receivedPackets.map Prod.fst).toFinset :=
    Finset.insert_subset hmem hsub
  have hcard1 : s.totalPackets + 1 ≤ (s.receivedPackets.map Prod.fst).toFinset.card := by
    have hc : (insert k (Finset.Icc 1 s.totalPackets)).card = s.totalPackets + 1 := by
      rw [Finset.card_insert_of_not_mem hknot, Nat.card_Icc]
      omega
    rw [← hc]
    exact Finset.card_le_card hins
  have hcard2 : (s.receivedPackets.map Prod.fst).toFinset.card ≤
      s.receivedPackets.length := by
    have := (s.receivedPackets.map Prod.fst).toFinset_card_le
    rwa [List.length_map] at this
  omega

/-- C7 amended: on an RFID_END frame for an open session, a decoded
record is produced exactly when the stored packet count equals
`total_packets`, each index `1..total_packets` is present, the checksum
matches the low 16 bits of the byte sum of the reassembled (truncated)
buffer, and that buffer is at least 89 bytes so it decodes; on success
the session is removed, but on any failure (reassembly, checksum or
decode) the error event leaves the parser state - sessions included -
completely unchanged; only the periodic timeout sweeper ever evicts such
a session. -/
theorem handleDataEnd_spec (p : RFIDDataParser) (d : List Nat) (s : RFIDTransferSession)
    (hs : lookupKey p.activeSessions (byteAt d 1) = some s)
    (hnodup : (p.activeSessions.map Prod.fst).Nodup) :
    ((∃ eid fid fd, (handleDataEnd p d).2 = some (.rfidComplete eid fid fd)) ↔
      (s.receivedPackets.length = s.totalPackets ∧
        (∀ j, 1 ≤ j → j ≤ s.totalPackets → (lookupKey s.receivedPackets j).isSome) ∧
        (∃ b, reassembleData s = some b ∧
          b.sum % 65536 = (byteAt d 3 <<< 8 ||| byteAt d 4) ∧ 89 ≤ b.length))) ∧
    ((∃ eid fid fd, (handleDataEnd p d).2 = some (.rfidComplete eid fid fd)) →
      lookupKey (handleDataEnd p d).1.activeSessions (byteAt d 1) = none) ∧
    (∀ e, (handleDataEnd p d).2 = some (.rfidError e) → (handleDataEnd p d).1 = p) := by
  simp only [handleDataEnd, hs]
  rcases hre : reassembleData s with _ | b
  · refine ⟨?_, ?_, ?_⟩
    · constructor
      · rintro ⟨eid, fid, fd, hcontra⟩
        cases hcontra
      · rintro ⟨h1, h2, b, hb, -, -⟩
        cases hb
    · rintro ⟨eid, fid, fd, hcontra⟩
      cases hcontra
    · intro e he
      trivial
  · by_cases hchk : b.sum % 65536 ≠ (byteAt d 3 <<< 8 ||| byteAt d 4)
    · simp only [if_pos hchk]
      refine ⟨?_, ?_, ?_⟩
      · constructor
        · rintro ⟨eid, fid, fd, hcontra⟩
          cases hcontra
        · rintro ⟨h1, h2, b1, hb1, hb2, -⟩
          obtain rfl : b = b1 := Option.some.inj hb1
          exact absurd hb2 hchk
      · rintro ⟨eid, fid, fd, hcontra⟩
        cases hcontra
      · intro e he
        trivial
    · push_neg at hchk
      simp only [if_neg (by omega : ¬ b.sum % 65536 ≠ (byteAt d 3 <<< 8 ||| byteAt d 4))]
      rcases hparse : parseOpentagData b with _ | fd
      · refine ⟨?_, ?_, ?_⟩
        · constructor
          · rintro ⟨eid, fid, fd, hcontra⟩
            cases hcontra
          · rintro ⟨h1, h2, b1, hb1, -, hb3⟩
            obtain rfl : b = b1 := Option.some.inj hb1
            have hps : (parseOpentagData b).isSome := (parseOpentagData_isSome b).mpr hb3
            rw [hparse] at hps
            cases hps
        · rintro ⟨eid, fid, fd, hcontra⟩
          cases hcontra
        · intro e he
          trivial
      · refine ⟨?_, ?_, ?_⟩
        · constructor
          · rintro -
            have hresome : (reassembleData s).isSome := by rw [hre]; rfl
            rw [reassembleData_isSome] at hresome
            have hblen : 89 ≤ b.length := by
              have hps : (parseOpentagData b).isSome := by rw [hparse]; rfl
              rwa [parseOpentagData_isSome] at hps
            exact ⟨hresome.1, hresome.2, b, rfl, hchk, hblen⟩
          · rintro -
            exact ⟨s.extruderId, s.filamentId, fd, rfl⟩
        · rintro -
          exact lookupKey_eraseKey_self hnodup (byteAt d 1)
        · intro e he
          cases he

/-- Parser state used by the C7 witness: one open session with a single
stored packet of 89 zero bytes. -/
def dataEndSessionW : RFIDTransferSession :=
  { sequence := 1, extruderId := 0, filamentId := 0, totalPackets := 1,
    dataLength := 89, dataSource := 0, receivedPackets := [(1, List.replicate 89 0)] }

def dataEndParserW : RFIDDataParser := ⟨[(1, dataEndSessionW)], []⟩

/-- Witness for C7 amended: a session whose single stored packet holds 89
zero bytes, closed by an RFID_END frame with checksum 0. -/
theorem handleDataEnd_spec_witness :
    (lookupKey dataEndParserW.activeSessions (byteAt [0x18, 1, 1, 0, 0, 0, 0, 0] 1) =
        some dataEndSessionW ∧
      (dataEndParserW.activeSessions.map Prod.fst).Nodup) ∧
    (((∃ eid fid fd, (handleDataEnd dataEndParserW [0x18, 1, 1, 0, 0, 0, 0, 0]).2 =
        some (.rfidComplete eid fid fd)) ↔
      (dataEndSessionW.receivedPackets.length = dataEndSessionW.totalPackets ∧
        (∀ j, 1 ≤ j → j ≤ dataEndSessionW.totalPackets →
          (lookupKey dataEndSessionW.receivedPackets j).isSome) ∧
        (∃ b, reassembleData dataEndSessionW = some b ∧
          b.sum % 65536 =
            (byteAt [0x18, 1, 1, 0, 0, 0, 0, 0] 3 <<< 8 |||
              byteAt [0x18, 1, 1, 0, 0, 0, 0, 0] 4) ∧ 89 ≤ b.length))) ∧
    ((∃ eid fid fd, (handleDataEnd dataEndParserW [0x18, 1, 1, 0, 0, 0, 0, 0]).2 =
        some (.rfidComplete eid fid fd)) →
      lookupKey (handleDataEnd dataEndParserW
        [0x18, 1, 1, 0, 0, 0, 0, 0]).1.activeSessions
        (byteAt [0x18, 1, 1, 0, 0, 0, 0, 0] 1) = none) ∧
    (∀ e, (handleDataEnd dataEndParserW [0x18, 1, 1, 0, 0, 0, 0, 0]).2 =
        some (.rfidError e) →
      (handleDataEnd dataEndParserW [0x18, 1, 1, 0, 0, 0, 0, 0]).1 = dataEndParserW)) :=
  ⟨⟨by decide, by decide⟩,
    handleDataEnd_spec dataEndParserW [0x18, 1, 1, 0, 0, 0, 0, 0] dataEndSessionW
      (by decide) (by decide)⟩

/-- Parser state after a start frame opening session 1 with one expected
packet of four bytes. -/
def rfidCexParser1 : RFIDDataParser :=
  (handleRfidMessage ⟨[], []⟩ [0x14, 1, 0, 1, 0, 4, 0, 0]).1

/-- Parser state after additionally receiving packet index 1 with bytes
`[9, 9, 9, 9]`. -/
def rfidCexParser2 : RFIDDataParser :=
  (handleRfidMessage rfidCexParser1 [0x17, 1, 1, 4, 9, 9, 9, 9]).1

/-- C7 counterexample: an RFID_END frame whose checksum does not match
produces the checksum_failed error event, yet the session is NOT
discarded - it is still registered under sequence 1 afterwards -
contradicting the claim that on any failure the session is discarded. -/
theorem rfid_end_checksum_failure_keeps_session :
    (handleRfidMessage rfidCexParser2 [0x18, 1, 1, 0xFF, 0xFF, 0, 0, 0]).2 =
      some (.rfidError "checksum_failed") ∧
    (lookupKey (handleRfidMessage rfidCexParser2
      [0x18, 1, 1, 0xFF, 0xFF, 0, 0, 0]).1.activeSessions 1).isSome = true := by
  decide

/-- C8 amended: a data packet addressed to an open session is always
stored: the stored bytes for its packet index are overwritten with the
packet payload whatever the index is (index 0 and indices above
total_packets included, so such a packet is not ignored), and whenever an
out-of-range index is present in the session packet map, reassembly of
that session fails, because the packet-count equality check and the
presence check of indices 1..total_packets cannot both hold. -/
theorem handleDataPacket_spec (p : RFIDDataParser) (d : List Nat)
    (s : RFIDTransferSession)
    (hs : lookupKey p.activeSessions (byteAt d 1) = some s) :
    ∃ s1, lookupKey (handleDataPacket p d).1.activeSessions (byteAt d 1) = some s1 ∧
      s1.receivedPackets =
        insertKey s.receivedPackets (byteAt d 2) ((d.drop 4).take (byteAt d 3)) ∧
      s1.totalPackets = s.totalPackets ∧
      (∀ k, (k = 0 ∨ s.totalPackets < k) →
        (lookupKey s1.receivedPackets k).isSome → reassembleData s1 = none) := by
  simp only [handleDataPacket, hs]
  refine ⟨_, lookupKey_insertKey_self p.activeSessions (byteAt d 1) _, rfl, rfl, ?_⟩
  intro k hk hksome
  rcases hrs : reassembleData _ with _ | b
  · rfl
  · exfalso
    have hbound := reassembleData_key_bound _ b hrs k hksome
    simp only at hbound
    rcases hk with h0 | hgt <;> omega

/-- Session used by the C8 witness: two expected packets, the first
already stored. -/
def dataPacketSessionW : RFIDTransferSession :=
  { sequence := 1, extruderId := 0, filamentId := 0, totalPackets := 2,
    dataLength := 8, dataSource := 0, receivedPackets := [(1, [1, 2, 3, 4])] }

def dataPacketParserW : RFIDDataParser := ⟨[(1, dataPacketSessionW)], []⟩

/-- Witness for C8 amended: a duplicate of packet index 1 overwrites the
stored bytes. -/
theorem handleDataPacket_spec_witness :
    lookupKey dataPacketParserW.activeSessions (byteAt [0x17, 1, 1, 4, 5, 6, 7, 8] 1) =
      some dataPacketSessionW ∧
    (∃ s1, lookupKey (handleDataPacket dataPacketParserW
        [0x17, 1, 1, 4, 5, 6, 7, 8]).1.activeSessions
        (byteAt [0x17, 1, 1, 4, 5, 6, 7, 8] 1) = some s1 ∧
      s1.receivedPackets = insertKey dataPacketSessionW.receivedPackets
        (byteAt [0x17, 1, 1, 4, 5, 6, 7, 8] 2)
        (([0x17, 1, 1, 4, 5, 6, 7, 8].drop 4).take
          (byteAt [0x17, 1, 1, 4, 5, 6, 7, 8] 3)) ∧
      s1.totalPackets = dataPacketSessionW.totalPackets ∧
      (∀ k, (k = 0 ∨ dataPacketSessionW.totalPackets < k) →
        (lookupKey s1.receivedPackets k).isSome → reassembleData s1 = none)) :=
  ⟨by decide, handleDataPacket_spec dataPacketParserW [0x17, 1, 1, 4, 5, 6, 7, 8]
    dataPacketSessionW (by decide)⟩

/-- C8 counterexample: before an index-0 packet arrives, the session of
`rfidCexParser2` reassembles successfully; the index-0 packet is
processed (a packet event is returned) and afterwards the same session no
longer reassembles, so a packet with packet_index 0 is not ignored and
does affect whether reassembly later succeeds. -/
theorem rfid_packet_index_zero_not_ignored :
    Option.map (fun s => (reassembleData s).isSome)
      (lookupKey rfidCexParser2.activeSessions 1) = some true ∧
    (handleRfidMessage rfidCexParser2 [0x17, 1, 0, 4, 7, 7, 7, 7]).2 =
      some (.rfidPacket 0 1) ∧
    Option.map (fun s => (reassembleData s).isSome)
      (lookupKey (handleRfidMessage rfidCexParser2
        [0x17, 1, 0, 4, 7, 7, 7, 7]).1.activeSessions 1) = some false := by
  decide

end FeederCabinet
